import Mathlib

/-!
Shallow embedding of the AirQual air-quality dashboard
(utils.py, recommendations.py, auth.py, database.py, data.py)
together with proofs of the specified behavioural properties.
-/

namespace AirQual

/-- Embedding of `utils.get_aqi_category`: maps a numeric AQI value to a
(category label, display color) pair through six upper-bound tests. -/
def get_aqi_category (aqi_value : ℚ) : String × String :=
  if aqi_value ≤ 50 then ("Good", "#4CAF50")
  else if aqi_value ≤ 100 then ("Moderate", "#FFEB3B")
  else if aqi_value ≤ 150 then ("Unhealthy for Sensitive Groups", "#FF9800")
  else if aqi_value ≤ 200 then ("Unhealthy", "#F44336")
  else if aqi_value ≤ 300 then ("Very Unhealthy", "#9C27B0")
  else ("Hazardous", "#800000")

/-- Severity rank of a category label, increasing with harm. -/
def severity (label : String) : Nat :=
  if label = "Good" then 0
  else if label = "Moderate" then 1
  else if label = "Unhealthy for Sensitive Groups" then 2
  else if label = "Unhealthy" then 3
  else if label = "Very Unhealthy" then 4
  else 5

lemma severity_mono {v w : ℚ} (h : v ≤ w) :
    severity (get_aqi_category v).1 ≤ severity (get_aqi_category w).1 := by
  unfold get_aqi_category
  split_ifs <;> simp [severity] <;> linarith

/-- C1: for every numeric AQI value v, `get_aqi_category` returns exactly the
(label, color) pair selected by the first matching upper-bound test in order
50, 100, 150, 200, 300; the function is total, the label is always one of
exactly six, and label severity is monotone non-decreasing in v. -/
theorem C1_category_table (v : ℚ) :
    (v ≤ 50 → get_aqi_category v = ("Good", "#4CAF50")) ∧
    (50 < v → v ≤ 100 → get_aqi_category v = ("Moderate", "#FFEB3B")) ∧
    (100 < v → v ≤ 150 →
      get_aqi_category v = ("Unhealthy for Sensitive Groups", "#FF9800")) ∧
    (150 < v → v ≤ 200 → get_aqi_category v = ("Unhealthy", "#F44336")) ∧
    (200 < v → v ≤ 300 → get_aqi_category v = ("Very Unhealthy", "#9C27B0")) ∧
    (300 < v → get_aqi_category v = ("Hazardous", "#800000")) ∧
    ((get_aqi_category v).1 = "Good" ∨ (get_aqi_category v).1 = "Moderate" ∨
      (get_aqi_category v).1 = "Unhealthy for Sensitive Groups" ∨
      (get_aqi_category v).1 = "Unhealthy" ∨
      (get_aqi_category v).1 = "Very Unhealthy" ∨
      (get_aqi_category v).1 = "Hazardous") ∧
    (∀ w, v ≤ w →
      severity (get_aqi_category v).1 ≤ severity (get_aqi_category w).1) := by
  refine ⟨?_, ?_, ?_, ?_, ?_, ?_, ?_, fun w hw => severity_mono hw⟩ <;>
    (try intro h1) <;> (try intro h2) <;>
    unfold get_aqi_category <;> split_ifs <;> simp_all <;> linarith

/-- Concrete instances of C1: category of 42 is Good, of 500 is Hazardous,
and severity is non-decreasing from 42 to 500. -/
theorem C1_category_table_witness :
    get_aqi_category 42 = ("Good", "#4CAF50") ∧
    get_aqi_category 500 = ("Hazardous", "#800000") ∧
    severity (get_aqi_category 42).1 ≤ severity (get_aqi_category 500).1 :=
  ⟨(C1_category_table 42).1 (by norm_num),
   (C1_category_table 500).2.2.2.2.2.1 (by norm_num),
   (C1_category_table 42).2.2.2.2.2.2.2 500 (by norm_num)⟩

/-- Value stored under one key of a recommendations dictionary: either a
text block or a list of protective actions. -/
inductive RecVal where
  | txt (s : String)
  | items (l : List String)
deriving DecidableEq

/-- Embedding of `recommendations.get_recommendations`: health
recommendations keyed on the six AQI breakpoints; basic mode returns a
4-entry dictionary, detailed mode a 9-entry dictionary, modelled as
association lists in insertion order. -/
def get_recommendations (aqi_value : ℚ) (detailed : Bool) : List (String × RecVal) :=
  if !detailed then
    if aqi_value ≤ 50 then
      [("general", .txt "Air quality is good. Enjoy your outdoor activities."),
       ("outdoor", .txt "It\x27s a great day for outdoor exercise and activities."),
       ("protection", .txt "No special protection needed for the general population."),
       ("health", .txt "Good air quality contributes to overall health and well-being.")]
    else if aqi_value ≤ 100 then
      [("general", .txt "Air quality is acceptable for most individuals."),
       ("outdoor", .txt "Unusually sensitive people should consider reducing prolonged outdoor exertion."),
       ("protection", .txt "No special protection needed for most people."),
       ("health", .txt "Good time to be outdoors, but monitor your body\x27s response if you have respiratory issues.")]
    else if aqi_value ≤ 150 then
      [("general", .txt "Members of sensitive groups may experience health effects."),
       ("outdoor", .txt "People with heart or lung disease, older adults, and children should limit prolonged outdoor exertion."),
       ("protection", .txt "Consider wearing masks outdoors if you belong to a sensitive group."),
       ("health", .txt "Stay hydrated and take more breaks during outdoor activities.")]
    else if aqi_value ≤ 200 then
      [("general", .txt "Everyone may begin to experience health effects."),
       ("outdoor", .txt "Everyone should limit prolonged outdoor exertion."),
       ("protection", .txt "Wear N95 masks outdoors. Keep windows closed at home and in vehicles."),
       ("health", .txt "Consider using air purifiers indoors. Stay well-hydrated.")]
    else if aqi_value ≤ 300 then
      [("general", .txt "Health alert: everyone may experience more serious health effects."),
       ("outdoor", .txt "Avoid all outdoor physical activities. Stay indoors if possible."),
       ("protection", .txt "Wear N95 masks whenever outdoors. Use air purifiers indoors."),
       ("health", .txt "Check on elderly neighbors and those with respiratory or heart conditions.")]
    else
      [("general", .txt "Health warning: emergency conditions. Entire population is more likely to be affected."),
       ("outdoor", .txt "Avoid all outdoor activities. Stay indoors with windows closed."),
       ("protection", .txt "Wear N95 masks even for brief outdoor exposure. Seal windows and doors if possible."),
       ("health", .txt "Use air purifiers, stay hydrated, and monitor for symptoms like coughing or shortness of breath.")]
  else
    if aqi_value ≤ 50 then
      [("general_detailed", .txt "Air quality is considered satisfactory, and air pollution poses little or no risk. It\x27s a great day for outdoor activities and exercise."),
       ("general_population", .txt "No special precautions needed. Enjoy your regular outdoor activities."),
       ("sensitive_groups", .txt "For people with unusual sensitivity to air pollution, consider monitoring how you feel during outdoor activities."),
       ("children", .txt "Great air quality for children to play outdoors. Perfect time for outdoor school activities."),
       ("elderly", .txt "Excellent conditions for outdoor walks and activities."),
       ("outdoor_workers", .txt "Favorable working conditions with minimal air quality concerns."),
       ("indoor_protection", .items
         ["No special indoor protection needed",
          "Good time to open windows and let fresh air in",
          "Regular housekeeping is sufficient"]),
       ("outdoor_protection", .items
         ["No special protection required",
          "Regular sun protection still advised",
          "Stay hydrated during outdoor activities"]),
       ("health_impacts", .txt "Good air quality contributes to overall health and wellbeing. Regular exposure to clean air supports respiratory function and cardiovascular health.")]
    else if aqi_value ≤ 100 then
      [("general_detailed", .txt "Air quality is acceptable; however, there may be a moderate health concern for a very small number of people who are unusually sensitive to air pollution."),
       ("general_population", .txt "Most people can continue normal outdoor activities. Pay attention to your body\x27s signals if you start feeling unwell."),
       ("sensitive_groups", .txt "People with respiratory diseases such as asthma should monitor their condition and limit prolonged outdoor exertion if symptoms occur."),
       ("children", .txt "Good conditions for outdoor play. Children with asthma should take usual precautions."),
       ("elderly", .txt "Generally good conditions for outdoor activities. Those with respiratory conditions should monitor how they feel."),
       ("outdoor_workers", .txt "Regular work activities can continue. Those with respiratory conditions should take breaks if needed."),
       ("indoor_protection", .items
         ["Regular ventilation is fine",
          "Consider using air purifiers if you have respiratory issues",
          "Standard cleaning practices are adequate"]),
       ("outdoor_protection", .items
         ["No special protection needed for most people",
          "Sensitive individuals may want to carry relief medication",
          "Regular sun protection and hydration advised"]),
       ("health_impacts", .txt "Moderate air quality generally has minimal impact on the general population, but may affect very sensitive individuals. Research shows that occasional exposure to these levels is unlikely to cause long-term effects.")]
    else if aqi_value ≤ 150 then
      [("general_detailed", .txt "Air quality is unhealthy for sensitive groups. Members of sensitive groups may experience health effects, but the general public is less likely to be affected."),
       ("general_population", .txt "Consider reducing prolonged or heavy outdoor exertion. Take more breaks during outdoor activities."),
       ("sensitive_groups", .txt "People with lung disease, older adults, and children should limit prolonged outdoor exertion and monitor symptoms closely."),
       ("children", .txt "It\x27s okay for children to be outdoors, but limit strenuous activities and watch for symptoms like coughing or difficulty breathing."),
       ("elderly", .txt "Older adults, especially those with heart or lung conditions, should reduce outdoor activities and monitor their health."),
       ("outdoor_workers", .txt "Take more frequent breaks in shaded or indoor areas. Stay well-hydrated and watch for symptoms."),
       ("indoor_protection", .items
         ["Keep windows closed during peak pollution hours",
          "Use air purifiers with HEPA filters if available",
          "Avoid activities that create additional indoor air pollution"]),
       ("outdoor_protection", .items
         ["Consider wearing N95 masks if you\x27re in a sensitive group",
          "Limit outdoor exercise to times when pollution is lower",
          "Keep rescue medications handy if you have respiratory conditions",
          "Choose less-busy routes for commuting to reduce exposure"]),
       ("health_impacts", .txt "At this level, sensitive individuals may experience respiratory symptoms like coughing or shortness of breath. Research indicates that repeated exposure can contribute to respiratory inflammation and reduced lung function in sensitive groups.")]
    else if aqi_value ≤ 200 then
      [("general_detailed", .txt "Air quality is unhealthy. Everyone may begin to experience health effects, and members of sensitive groups may experience more serious effects."),
       ("general_population", .txt "Everyone should limit prolonged outdoor exertion. Consider rescheduling outdoor activities."),
       ("sensitive_groups", .txt "People with heart or lung disease, older adults, and children should avoid prolonged outdoor exertion and stay indoors when possible."),
       ("children", .txt "Children should reduce outdoor activities, especially during peak pollution hours. School outdoor activities should be moved indoors."),
       ("elderly", .txt "Older adults should stay indoors with windows closed and air purifiers running if available."),
       ("outdoor_workers", .txt "Reduce strenuous work, take frequent breaks indoors, and wear protective masks when possible."),
       ("indoor_protection", .items
         ["Keep all windows and doors closed",
          "Use air purifiers with HEPA filters in main living areas",
          "Avoid burning candles or using gas stoves",
          "Consider using a humidity-controlled air conditioner",
          "Damp-mop surfaces to reduce settled particles"]),
       ("outdoor_protection", .items
         ["Wear N95 masks when outdoors",
          "Minimize time spent outdoors, especially during exercise",
          "Use vehicles with cabin air filters set to recirculate",
          "Carry any needed medications",
          "Shower and change clothes after returning indoors"]),
       ("health_impacts", .txt "Unhealthy air quality can cause respiratory irritation, coughing, shortness of breath, and aggravate existing heart and lung conditions. Research shows that exposure at these levels can cause measurable lung function decreases and inflammatory responses.")]
    else if aqi_value ≤ 300 then
      [("general_detailed", .txt "Air quality is very unhealthy. Health alert: The risk of health effects is increased for everyone. People should avoid outdoor activities."),
       ("general_population", .txt "Avoid all outdoor physical activities. Stay indoors with windows closed and air purifiers running if available."),
       ("sensitive_groups", .txt "People with heart or lung disease, older adults, children, and pregnant women should strictly avoid outdoor exposure."),
       ("children", .txt "Keep children indoors. All outdoor school activities should be cancelled or moved indoors."),
       ("elderly", .txt "Elderly individuals should strictly remain indoors with air filtration. Consider checking in on elderly neighbors."),
       ("outdoor_workers", .txt "If possible, move work indoors or reschedule. If outdoor work is mandatory, wear proper respiratory protection and take frequent indoor breaks."),
       ("indoor_protection", .items
         ["Stay indoors with windows and doors sealed",
          "Run air purifiers with HEPA filters on highest setting",
          "Create a clean air room if whole-house filtration isn\x27t available",
          "Change HVAC filters to highest efficiency possible",
          "Use wet cleaning methods for dust and avoid vacuuming",
          "Consider using an N95 mask even indoors if air filtration is poor"]),
       ("outdoor_protection", .items
         ["Avoid all unnecessary outdoor activities",
          "Wear N95 or preferably N99 masks for any outdoor exposure",
          "Use eye protection outdoors to reduce eye irritation",
          "Shower immediately after returning indoors",
          "Wash clothes exposed to outdoor air separately",
          "Keep all vehicle windows closed with air on recirculate"]),
       ("health_impacts", .txt "Very unhealthy air quality can cause significant respiratory distress, aggravate heart and lung disease, and reduce exercise tolerance in healthy individuals. Research links exposure at these levels to increased emergency room visits and negative cardiovascular effects even in healthy people.")]
    else
      [("general_detailed", .txt "Air quality is hazardous. Health warning of emergency conditions: everyone is more likely to be affected and should take precautions."),
       ("general_population", .txt "Everyone should avoid all physical activity outdoors. If possible, remain indoors with air filtration."),
       ("sensitive_groups", .txt "Extremely dangerous conditions for sensitive individuals. Stay indoors with filtered air and minimize physical activity of any kind."),
       ("children", .txt "Keep children strictly indoors with activities that don\x27t require physical exertion. Schools should consider closures."),
       ("elderly", .txt "Dangerous conditions for elderly. Remain indoors, use air filtration, and monitor for any health changes that may require medical attention."),
       ("outdoor_workers", .txt "Outdoor work should be suspended if possible. If critical work must continue, use highest level of respiratory protection available."),
       ("indoor_protection", .items
         ["Remain indoors with all windows and doors sealed",
          "Create a clean air shelter in one room with extra sealing and filtration",
          "Run HEPA air purifiers continuously",
          "Seal gaps under doors and around windows if possible",
          "Avoid any activities that generate indoor air pollution",
          "Consider using N95 masks even indoors if adequate filtration is not available",
          "Minimize physical activity to reduce breathing rate"]),
       ("outdoor_protection", .items
         ["Avoid all outdoor activity if possible",
          "If outdoors is unavoidable, wear N99 or N100 respirators",
          "Cover all exposed skin if possible",
          "Use sealed goggles to protect eyes",
          "Keep outdoor exposure as brief as possible",
          "Shower and change clothes immediately upon returning indoors",
          "Consider temporary relocation if conditions persist"]),
       ("health_impacts", .txt "Hazardous air quality presents emergency health conditions. Exposure can cause serious aggravation of heart or lung disease and premature mortality in people with cardiopulmonary disease and older adults. Healthy people will experience adverse respiratory and cardiovascular effects. Research shows significantly increased hospital admissions during these pollution levels.")]

/-- C2 counterexample: at AQI 42 the detailed dictionary has 9 keys, not
the 11 keys the specification asserts. -/
theorem C2_keys_counterexample :
    ((get_recommendations 42 true).map Prod.fst).length = 9 ∧
    ((get_recommendations 42 true).map Prod.fst).length ≠ 11 := by
  constructor <;> decide

/-- C2 (amended): for every AQI value v, basic mode returns exactly the 4
keys general, outdoor, protection, health, and detailed mode returns
exactly the 9 keys general_detailed, general_population, sensitive_groups,
children, elderly, outdoor_workers, indoor_protection, outdoor_protection,
health_impacts; the key set is the same for every v within each mode. -/
theorem C2_key_sets (v : ℚ) :
    (get_recommendations v false).map Prod.fst
      = ["general", "outdoor", "protection", "health"] ∧
    (get_recommendations v true).map Prod.fst
      = ["general_detailed", "general_population", "sensitive_groups",
         "children", "elderly", "outdoor_workers", "indoor_protection",
         "outdoor_protection", "health_impacts"] := by
  constructor <;> (unfold get_recommendations; split_ifs <;> simp_all)

/-- Embedding of `auth.hash_password`: the stored credential is the
64-character hex salt concatenated with the PBKDF2-HMAC-SHA256 digest of
the password under that salt. Strings are modelled as character lists and
the key-derivation function `pbkdf2` is an abstract parameter. -/
def hash_password (pbkdf2 : List Char → List Char → List Char)
    (salt password : List Char) : List Char :=
  salt ++ pbkdf2 password salt

/-- Embedding of `auth.verify_password`: re-derives the digest of the
provided password under the first 64 stored characters (the salt) and
compares it with the remainder of the stored credential. -/
def verify_password (pbkdf2 : List Char → List Char → List Char)
    (stored_password provided_password : List Char) : Bool :=
  pbkdf2 provided_password (stored_password.take 64) == stored_password.drop 64

/-- C3: a freshly hashed password verifies against the original password,
fails to verify against any other password (given that the key-derivation
function is collision-free in the password argument, the cryptographic
assumption the code relies on), and hashing under two distinct salts
yields two distinct stored credentials that both verify. -/
theorem C3_password_roundtrip (pbkdf2 : List Char → List Char → List Char)
    (hinj : ∀ s p q, pbkdf2 p s = pbkdf2 q s → p = q)
    (salt1 salt2 p p2 : List Char)
    (h1 : salt1.length = 64) (h2 : salt2.length = 64)
    (hp : p2 ≠ p) (hs : salt1 ≠ salt2) :
    verify_password pbkdf2 (hash_password pbkdf2 salt1 p) p = true ∧
    verify_password pbkdf2 (hash_password pbkdf2 salt1 p) p2 = false ∧
    hash_password pbkdf2 salt1 p ≠ hash_password pbkdf2 salt2 p ∧
    verify_password pbkdf2 (hash_password pbkdf2 salt2 p) p = true := by
  have t1 : (salt1 ++ pbkdf2 p salt1).take 64 = salt1 := List.take_left' h1
  have d1 : (salt1 ++ pbkdf2 p salt1).drop 64 = pbkdf2 p salt1 := List.drop_left' h1
  have t2 : (salt2 ++ pbkdf2 p salt2).take 64 = salt2 := List.take_left' h2
  have d2 : (salt2 ++ pbkdf2 p salt2).drop 64 = pbkdf2 p salt2 := List.drop_left' h2
  refine ⟨?_, ?_, ?_, ?_⟩
  · simp [verify_password, hash_password, t1, d1]
  · simp only [verify_password, hash_password, t1, d1, beq_eq_false_iff_ne, ne_eq]
    intro h
    exact hp (hinj _ _ _ h)
  · intro h
    apply hs
    have h' := congrArg (List.take 64) h
    simpa [hash_password, t1, t2] using h'
  · simp [verify_password, hash_password, t2, d2]

/-- Concrete instance of C3 with an injective stand-in key-derivation
function and two distinct 64-character salts. -/
theorem C3_password_roundtrip_witness :
    verify_password (fun pw _ => pw)
      (hash_password (fun pw _ => pw) (List.replicate 64 'a') ['x']) ['x'] = true ∧
    verify_password (fun pw _ => pw)
      (hash_password (fun pw _ => pw) (List.replicate 64 'a') ['x']) ['y'] = false ∧
    hash_password (fun pw _ => pw) (List.replicate 64 'a') ['x']
      ≠ hash_password (fun pw _ => pw) (List.replicate 64 'b') ['x'] ∧
    verify_password (fun pw _ => pw)
      (hash_password (fun pw _ => pw) (List.replicate 64 'b') ['x']) ['x'] = true :=
  C3_password_roundtrip (fun pw _ => pw) (fun _ _ _ h => h)
    (List.replicate 64 'a') (List.replicate 64 'b') ['x'] ['y']
    (by decide) (by decide) (by decide) (by decide)

/-- Row of the `password_resets` table. -/
structure ResetRow where
  username : String
  token : String
  expiry : Int
deriving DecidableEq

/-- State of the authentication tables: `users` maps usernames to stored
password hashes, `resets` holds the password-reset rows. -/
structure AuthDB where
  users : List (String × String)
  resets : List ResetRow
deriving DecidableEq

/-- Embedding of `auth.verify_reset_token`: fetches the first reset row
with the given token; returns no identity if none exists or the current
time is past the row expiry, and the row username otherwise. -/
def verify_reset_token (db : AuthDB) (token : String) (now : Int) : Option String :=
  match db.resets.find? (fun r => r.token == token) with
  | none => none
  | some r => if now > r.expiry then none else some r.username

/-- Embedding of `auth.update_password`: stores the new hash for the user
and deletes all reset rows of that user. The freshly salted hash is an
argument since hashing is randomized. -/
def update_password (db : AuthDB) (username hashed_password : String) : AuthDB :=
  { users := db.users.map (fun u => if u.1 == username then (u.1, hashed_password) else u),
    resets := db.resets.filter (fun r => !(r.username == username)) }

lemma update_password_removes_user_resets (db : AuthDB) (username hashed : String) :
    ∀ r ∈ (update_password db username hashed).resets, r.username ≠ username := by
  intro r hr
  have hp := (List.mem_filter.mp hr).2
  simpa using hp

/-- C5: an unknown token verifies to no identity; a token whose expiry has
passed verifies to no identity; and after a successful password update all
of that user's reset tokens are deleted, so no token verifies to that
user's identity any more. -/
theorem C5_reset_token_lifecycle (db : AuthDB) (token : String) (now : Int)
    (username hashed : String) :
    ((∀ r ∈ db.resets, r.token ≠ token) → verify_reset_token db token now = none) ∧
    ((∀ r ∈ db.resets, r.token = token → now > r.expiry) →
      verify_reset_token db token now = none) ∧
    (∀ r ∈ (update_password db username hashed).resets, r.username ≠ username) ∧
    (∀ t n, verify_reset_token (update_password db username hashed) t n ≠ some username) := by
  refine ⟨?_, ?_, update_password_removes_user_resets db username hashed, ?_⟩
  · intro h
    unfold verify_reset_token
    have hf : db.resets.find? (fun r => r.token == token) = none := by
      rw [List.find?_eq_none]
      intro r hr
      simpa using h r hr
    rw [hf]
  · intro h
    unfold verify_reset_token
    cases hf : db.resets.find? (fun r => r.token == token) with
    | none => rfl
    | some r =>
      have hr : r.token = token := by simpa using List.find?_some hf
      have hm : r ∈ db.resets := List.mem_of_find?_eq_some hf
      simp [h r hm hr]
  · intro t n hsome
    unfold verify_reset_token at hsome
    cases hf : (update_password db username hashed).resets.find? (fun r => r.token == t) with
    | none => rw [hf] at hsome; simp at hsome
    | some r =>
      rw [hf] at hsome
      have hm := List.mem_of_find?_eq_some hf
      have hne := update_password_removes_user_resets db username hashed r hm
      by_cases hgt : n > r.expiry
      · simp [hgt] at hsome
      · simp [hgt] at hsome
        exact hne hsome

/-- Concrete instance of C5: an unknown token and an expired token verify
to no identity, and the consumed token of a user no longer verifies to
that user after a password update. -/
theorem C5_reset_token_lifecycle_witness :
    verify_reset_token ⟨[("alice", "h1")], [⟨"alice", "tok", 100⟩]⟩ "zzz" 5 = none ∧
    verify_reset_token ⟨[("alice", "h1")], [⟨"alice", "tok", 100⟩]⟩ "tok" 200 = none ∧
    verify_reset_token
      (update_password ⟨[("alice", "h1")], [⟨"alice", "tok", 100⟩]⟩ "alice" "h2")
      "tok" 5 ≠ some "alice" :=
  ⟨(C5_reset_token_lifecycle ⟨[("alice", "h1")], [⟨"alice", "tok", 100⟩]⟩
      "zzz" 5 "alice" "h2").1 (by decide),
   (C5_reset_token_lifecycle ⟨[("alice", "h1")], [⟨"alice", "tok", 100⟩]⟩
      "tok" 200 "alice" "h2").2.1 (by decide),
   (C5_reset_token_lifecycle ⟨[("alice", "h1")], [⟨"alice", "tok", 100⟩]⟩
      "tok" 5 "alice" "h2").2.2.2 "tok" 5⟩

/-- Row of the `users` table. -/
structure UserRow where
  username : String
  password : String
  created_at : Int
deriving DecidableEq

/-- Row of the `user_preferences` table; the JSON-valued columns are kept
as their stored string payloads. -/
structure PrefRow where
  username : String
  saved_locations : String
  unit : String
  notification_preferences : String
deriving DecidableEq

/-- Row of the `aqi_readings` table. -/
structure AqiRow where
  username : String
  location : String
  aqi_value : ℚ
  timestamp : Int
  pollutants : List (String × ℚ)
deriving DecidableEq

/-- State of the persistence layer's three mutable tables used by the
write operations. -/
structure DBState where
  users : List UserRow
  prefs : List PrefRow
  readings : List AqiRow
deriving DecidableEq

/-- Preferences row created at registration: the schema defaults plus the
explicit metric unit. -/
def defaultPrefRow (username : String) : PrefRow :=
  ⟨username, "[]", "metric", "\x7b\x7d"⟩

/-- Embedding of `auth.register_user`. The hashed password is an argument
(hashing is randomized). The two Boolean flags inject the error paths of
the two INSERT statements; the user INSERT is committed before the
preferences INSERT is attempted, so a preferences failure rolls back only
the preferences row, matching the commit placement in the source. -/
def register_user (db : DBState) (username hashed_password : String) (now : Int)
    (user_insert_fails pref_insert_fails : Bool) : Bool × DBState :=
  if db.users.any (fun u => u.username == username) then (false, db)
  else if user_insert_fails then (false, db)
  else
    let db1 : DBState := { db with users := db.users ++ [⟨username, hashed_password, now⟩] }
    if pref_insert_fails then (false, db1)
    else (true, { db1 with prefs := db1.prefs ++ [defaultPrefRow username] })

/-- Embedding of `database.save_aqi_reading`: appends one reading row as a
single transaction; the Boolean flag injects the error path. -/
def save_aqi_reading (db : DBState) (username location : String) (aqi_value : ℚ)
    (pollutants : List (String × ℚ)) (now : Int) (insert_fails : Bool) : Bool × DBState :=
  if insert_fails then (false, db)
  else (true, { db with readings :=
    db.readings ++ [⟨username, location, aqi_value, now, pollutants⟩] })

/-- Embedding of `database.update_user_preference`: updates the named
column in a single transaction, rejecting unknown preference names; the
Boolean flag injects the error path. -/
def update_user_preference (db : DBState) (username preference value : String)
    (update_fails : Bool) : Bool × DBState :=
  if preference == "saved_locations" then
    if update_fails then (false, db)
    else (true, { db with prefs := db.prefs.map (fun r =>
      if r.username == username then { r with saved_locations := value } else r) })
  else if preference == "unit" then
    if update_fails then (false, db)
    else (true, { db with prefs := db.prefs.map (fun r =>
      if r.username == username then { r with unit := value } else r) })
  else if preference == "notification_preferences" then
    if update_fails then (false, db)
    else (true, { db with prefs := db.prefs.map (fun r =>
      if r.username == username then { r with notification_preferences := value } else r) })
  else (false, db)

/-- Embedding of `database.update_user_locations`: stores the serialized
saved-locations list in a single transaction; the Boolean flag injects
the error path. -/
def update_user_locations (db : DBState) (username locations : String)
    (update_fails : Bool) : Bool × DBState :=
  if update_fails then (false, db)
  else (true, { db with prefs := db.prefs.map (fun r =>
    if r.username == username then { r with saved_locations := locations } else r) })

/-- C6: registering a username that already exists returns failure and
performs no write at all, so the existing account's stored password hash
is unchanged. -/
theorem C6_duplicate_registration (db : DBState) (username hashed : String)
    (now : Int) (f1 f2 : Bool) (h : ∃ u ∈ db.users, u.username = username) :
    register_user db username hashed now f1 f2 = (false, db) := by
  obtain ⟨u, hu, he⟩ := h
  have hc : (db.users.any fun u => u.username == username) = true := by
    rw [List.any_eq_true]
    exact ⟨u, hu, by simp [he]⟩
  unfold register_user
  rw [if_pos hc]

/-- Concrete instance of C6: re-registering "alice" fails and leaves the
database exactly as it was. -/
theorem C6_duplicate_registration_witness :
    register_user ⟨[⟨"alice", "h1", 0⟩], [], []⟩ "alice" "h2" 1 false false
      = (false, ⟨[⟨"alice", "h1", 0⟩], [], []⟩) :=
  C6_duplicate_registration ⟨[⟨"alice", "h1", 0⟩], [], []⟩ "alice" "h2" 1
    false false ⟨⟨"alice", "h1", 0⟩, by simp⟩

/-- C8 counterexample: registering a fresh user whose preferences INSERT
fails returns failure, yet the stored state is changed — the committed
user row survives the rollback. -/
theorem C8_rollback_counterexample :
    (register_user ⟨[], [], []⟩ "alice" "h1" 0 false true).1 = false ∧
    (register_user ⟨[], [], []⟩ "alice" "h1" 0 false true).2
      ≠ (⟨[], [], []⟩ : DBState) := by
  constructor <;> decide

/-- C8 (amended): saving a reading, updating a preference and updating
saved locations are single best-effort transactions — on any error the
state is unchanged and failure is returned; register_user also returns
failure on any error and leaves the state unchanged when the user INSERT
fails, but when the user INSERT has committed and the preferences INSERT
fails, the inserted user row remains stored. -/
theorem C8_write_rollback (db : DBState)
    (username location preference value locations hashed : String)
    (aqi : ℚ) (pollutants : List (String × ℚ)) (now : Int) (f2 : Bool) :
    save_aqi_reading db username location aqi pollutants now true = (false, db) ∧
    update_user_preference db username preference value true = (false, db) ∧
    update_user_locations db username locations true = (false, db) ∧
    register_user db username hashed now true f2 = (false, db) ∧
    ((∀ u ∈ db.users, u.username ≠ username) →
      register_user db username hashed now false true
        = (false, { db with users := db.users ++ [⟨username, hashed, now⟩] })) := by
  refine ⟨rfl, ?_, rfl, ?_, ?_⟩
  · unfold update_user_preference
    split_ifs <;> simp_all
  · unfold register_user
    split_ifs <;> simp_all
  · intro h
    have hc : (db.users.any fun u => u.username == username) = false := by
      rw [List.any_eq_false]
      intro u hu
      simpa using h u hu
    unfold register_user
    simp [hc]

/-- Concrete instance of C8 (amended): a failed preference update leaves
an empty database unchanged, and a fresh registration whose preferences
INSERT fails still stores the user row. -/
theorem C8_write_rollback_witness :
    update_user_preference ⟨[], [], []⟩ "alice" "unit" "imperial" true
      = (false, ⟨[], [], []⟩) ∧
    register_user ⟨[], [], []⟩ "alice" "h1" 0 false true
      = (false, ⟨[⟨"alice", "h1", 0⟩], [], []⟩) :=
  ⟨(C8_write_rollback ⟨[], [], []⟩ "alice" "x" "unit" "imperial" "[]" "h1"
      0 [] 0 true).2.1,
   by
    have h := (C8_write_rollback ⟨[], [], []⟩ "alice" "x" "unit" "imperial"
      "[]" "h1" 0 [] 0 true).2.2.2.2 (by simp)
    simpa using h⟩

/-- One measurement object of the primary provider's latest-measurements
response. -/
structure Measurement where
  parameter : String
  value : ℚ
deriving DecidableEq

/-- Parsed body of the fallback provider's feed response. -/
structure WaqiResponse where
  status : String
  aqi : ℚ
  iaqi : List (String × ℚ)
deriving DecidableEq

/-- Possible results of the AQI data fetcher: a reading record, an error
record carrying alternative location-name suggestions, or the absent
result (Python None). -/
inductive FetchResult where
  | reading (aqi : ℚ) (pollutants : List (String × ℚ))
      (location : String) (timestamp : String)
  | suggestions (alternatives : List String)
  | failure
deriving DecidableEq

/-- Python dictionary assignment on an association list: replaces the
value of an existing key, otherwise appends the binding. -/
def dictInsert (d : List (String × ℚ)) (k : String) (v : ℚ) : List (String × ℚ) :=
  if d.any (fun p => p.1 == k) then d.map (fun p => if p.1 == k then (k, v) else p)
  else d ++ [(k, v)]

/-- Pollutant dictionary built by `data.get_current_aqi` from the
measurement list: one binding per parameter name, later values winning,
keys kept exactly as the provider sent them. -/
def buildPollutants (ms : List Measurement) : List (String × ℚ) :=
  ms.foldl (fun d m => dictInsert d m.parameter m.value) []

/-- Truncation toward zero, the behaviour of Python int() on a number. -/
def pyInt (q : ℚ) : Int := if 0 ≤ q then ⌊q⌋ else -⌊-q⌋

/-- Embedding of `data.calculate_aqi`: simplified piecewise-linear AQI
from the pollutant dictionary, preferring PM2.5, then PM10, then NO2,
then O3, with 50 as the default when none is present. -/
def calculate_aqi (pollutants : List (String × ℚ)) : Int :=
  match pollutants.lookup "pm25" with
  | some pm25 =>
    if pm25 ≤ 12 then pyInt (50 * (pm25 / 12))
    else if pm25 ≤ 35.4 then pyInt (50 + 50 * (pm25 - 12) / 23.4)
    else if pm25 ≤ 55.4 then pyInt (100 + 50 * (pm25 - 35.4) / 20)
    else if pm25 ≤ 150.4 then pyInt (150 + 50 * (pm25 - 55.4) / 95)
    else if pm25 ≤ 250.4 then pyInt (200 + 100 * (pm25 - 150.4) / 100)
    else pyInt (300 + 200 * (pm25 - 250.4) / 250)
  | none =>
    match pollutants.lookup "pm10" with
    | some pm10 =>
      if pm10 ≤ 54 then pyInt (50 * (pm10 / 54))
      else if pm10 ≤ 154 then pyInt (50 + 50 * (pm10 - 54) / 100)
      else if pm10 ≤ 254 then pyInt (100 + 50 * (pm10 - 154) / 100)
      else if pm10 ≤ 354 then pyInt (150 + 50 * (pm10 - 254) / 100)
      else if pm10 ≤ 424 then pyInt (200 + 100 * (pm10 - 354) / 70)
      else pyInt (300 + 200 * (pm10 - 424) / 176)
    | none =>
      match pollutants.lookup "no2" with
      | some no2 => min 300 (pyInt (no2 * 2))
      | none =>
        match pollutants.lookup "o3" with
        | some o3 => min 300 (pyInt (o3 * 1.5))
        | none => 50

/-- Fixed provider-key to display-name table of the fallback source. -/
def pollutant_map : List (String × String) :=
  [("pm25", "PM2.5"), ("pm10", "PM10"), ("o3", "O3"),
   ("no2", "NO2"), ("so2", "SO2"), ("co", "CO")]

/-- Pollutant remapping of the fallback source: walks the fixed table and
keeps the sub-reading value of each provider key present in `iaqi` under
its display name; provider keys outside the table are never consulted. -/
def mapIaqi (iaqi : List (String × ℚ)) : List (String × ℚ) :=
  pollutant_map.filterMap (fun kd => (iaqi.lookup kd.1).map (fun v => (kd.2, v)))

/-- Embedding of `data.get_aqi_from_alternative_source`: on a parsed
response with status ok it builds the reading record with remapped
pollutants; any other status, and any request or parse exception, yields
the absent result. -/
def get_aqi_from_alternative_source (waqi : Except Unit WaqiResponse)
    (location timestamp : String) : FetchResult :=
  match waqi with
  | .error _ => .failure
  | .ok d =>
    if d.status == "ok" then .reading d.aqi (mapIaqi d.iaqi) location timestamp
    else .failure

/-- Embedding of `data.get_current_aqi`. The two primary-provider requests
are parameters: `locations` is the parsed id list of the locations
request and `latest` the parsed measurement list for a location id;
`.error` marks a raised exception (network or payload), which diverts to
the fallback source, while empty or missing results return the absent
result directly without consulting the fallback. -/
def get_current_aqi (locations : Except Unit (List Nat))
    (latest : Nat → Except Unit (List Measurement))
    (waqi : Except Unit WaqiResponse) (location timestamp : String) : FetchResult :=
  match locations with
  | .error _ => get_aqi_from_alternative_source waqi location timestamp
  | .ok [] => .failure
  | .ok (loc_id :: _) =>
    match latest loc_id with
    | .error _ => get_aqi_from_alternative_source waqi location timestamp
    | .ok [] => .failure
    | .ok (m :: ms) =>
      .reading ((calculate_aqi (buildPollutants (m :: ms)) : Int) : ℚ)
        (buildPollutants (m :: ms)) location timestamp

lemma alt_source_shape (waqi : Except Unit WaqiResponse) (location timestamp : String) :
    get_aqi_from_alternative_source waqi location timestamp = .failure ∨
    ∃ a p, get_aqi_from_alternative_source waqi location timestamp
      = FetchResult.reading a p location timestamp := by
  cases waqi with
  | error e => exact Or.inl rfl
  | ok d =>
    by_cases h : (d.status == "ok") = true
    · exact Or.inr ⟨d.aqi, mapIaqi d.iaqi,
        by simp [get_aqi_from_alternative_source, h]⟩
    · exact Or.inl (by simp [get_aqi_from_alternative_source, h])

lemma fetch_shape (locations : Except Unit (List Nat))
    (latest : Nat → Except Unit (List Measurement))
    (waqi : Except Unit WaqiResponse) (location timestamp : String) :
    get_current_aqi locations latest waqi location timestamp = .failure ∨
    ∃ a p, get_current_aqi locations latest waqi location timestamp
      = FetchResult.reading a p location timestamp := by
  cases locations with
  | error e => simpa [get_current_aqi] using alt_source_shape waqi location timestamp
  | ok ids =>
    cases ids with
    | nil => exact Or.inl rfl
    | cons i rest =>
      cases hl : latest i with
      | error e =>
        simpa [get_current_aqi, hl] using alt_source_shape waqi location timestamp
      | ok ms =>
        cases ms with
        | nil => exact Or.inl (by simp [get_current_aqi, hl])
        | cons m tl =>
          exact Or.inr ⟨((calculate_aqi (buildPollutants (m :: tl)) : Int) : ℚ),
            buildPollutants (m :: tl), by simp [get_current_aqi, hl]⟩

/-- C4 counterexample: with the primary provider failing and the fallback
provider reporting an unknown city (`status` = error, the spec scenario
for "Lundon"), the fetcher returns the absent result, not the
suggestion-carrying error record the claim asserts. -/
theorem C4_suggestions_counterexample :
    get_current_aqi (Except.error ()) (fun _ => Except.error ())
      (Except.ok ⟨"error", 0, []⟩) "Lundon" "2024-01-01T00:00:00" = FetchResult.failure ∧
    get_current_aqi (Except.error ()) (fun _ => Except.error ())
      (Except.ok ⟨"error", 0, []⟩) "Lundon" "2024-01-01T00:00:00"
      ≠ FetchResult.suggestions ["London"] :=
  ⟨rfl, fun h => FetchResult.noConfusion h⟩

/-- C4 (amended): for every provider behaviour the fetcher returns either
a reading record carrying the requested location label and timestamp or
the absent result; it never returns a suggestion-carrying error record,
and a fallback response whose status is not ok (an unknown city included)
yields the absent result. -/
theorem C4_fetch_result_shape (locations : Except Unit (List Nat))
    (latest : Nat → Except Unit (List Measurement))
    (waqi : Except Unit WaqiResponse) (location timestamp : String) :
    (get_current_aqi locations latest waqi location timestamp = .failure ∨
      ∃ a p, get_current_aqi locations latest waqi location timestamp
        = FetchResult.reading a p location timestamp) ∧
    (∀ s, get_current_aqi locations latest waqi location timestamp
      ≠ FetchResult.suggestions s) ∧
    (∀ d, waqi = .ok d → d.status ≠ "ok" →
      get_aqi_from_alternative_source waqi location timestamp = .failure) := by
  refine ⟨fetch_shape locations latest waqi location timestamp, ?_, ?_⟩
  · intro s h
    rcases fetch_shape locations latest waqi location timestamp with hf | ⟨a, p, hr⟩
    · rw [h] at hf; exact FetchResult.noConfusion hf
    · rw [h] at hr; exact FetchResult.noConfusion hr
  · intro d hd hstatus
    subst hd
    simp [get_aqi_from_alternative_source, hstatus]

/-- Concrete instance of C4 (amended): a fallback response with status
"error" produces the absent result. -/
theorem C4_fetch_result_shape_witness :
    get_aqi_from_alternative_source (Except.ok ⟨"error", 0, []⟩) "Lundon" "t"
      = FetchResult.failure :=
  (C4_fetch_result_shape (Except.error ()) (fun _ => Except.error ())
    (Except.ok ⟨"error", 0, []⟩) "Lundon" "t").2.2 ⟨"error", 0, []⟩ rfl (by decide)

/-- C9 counterexample: on the primary-provider path the reading keeps the
provider's raw key pm25 — it is not remapped to PM2.5 even though the
fixed table of the fallback source maps pm25 to PM2.5 (second conjunct). -/
theorem C9_remap_counterexample :
    get_current_aqi (Except.ok [7]) (fun _ => Except.ok [⟨"pm25", 12⟩])
      (Except.error ()) "London" "t"
      = FetchResult.reading 50 [("pm25", 12)] "London" "t" ∧
    mapIaqi [("pm25", 12)] = [("PM2.5", 12)] := by
  constructor
  · show FetchResult.reading _ _ _ _ = _
    norm_num [buildPollutants, dictInsert, calculate_aqi, pyInt, List.lookup]
  · decide

lemma lookup_cons_of_ne {a k : String} (v : ℚ) (l : List (String × ℚ)) (h : a ≠ k) :
    List.lookup a ((k, v) :: l) = List.lookup a l := by
  have hb : (a == k) = false := beq_eq_false_iff_ne.mpr h
  simp [List.lookup, hb]

/-- C9 (amended): the fallback source remaps pollutant keys through the
fixed table pm25, pm10, o3, no2, so2, co to their display names, every
remapped entry's value comes from the corresponding provider key, and a
provider key outside the table never contributes; the primary path,
however, passes provider keys through unchanged. -/
theorem C9_pollutant_remap (d : WaqiResponse) (location timestamp : String)
    (hok : d.status = "ok") :
    get_aqi_from_alternative_source (Except.ok d) location timestamp
      = FetchResult.reading d.aqi (mapIaqi d.iaqi) location timestamp ∧
    (∀ p ∈ mapIaqi d.iaqi,
      p.1 ∈ ["PM2.5", "PM10", "O3", "NO2", "SO2", "CO"] ∧
      ∃ src, (src, p.1) ∈ pollutant_map ∧ d.iaqi.lookup src = some p.2) ∧
    (∀ k v l, (∀ kd ∈ pollutant_map, kd.1 ≠ k) →
      mapIaqi ((k, v) :: l) = mapIaqi l) ∧
    (∀ i rest latest m ms waqi,
      latest i = Except.ok (m :: ms) →
      get_current_aqi (Except.ok (i :: rest)) latest waqi location timestamp
        = FetchResult.reading ((calculate_aqi (buildPollutants (m :: ms)) : Int) : ℚ)
            (buildPollutants (m :: ms)) location timestamp) := by
  refine ⟨?_, ?_, ?_, ?_⟩
  · simp [get_aqi_from_alternative_source, hok]
  · intro p hp
    unfold mapIaqi at hp
    rw [List.mem_filterMap] at hp
    obtain ⟨kd, hkd, hmap⟩ := hp
    obtain ⟨v, hv, hpv⟩ := Option.map_eq_some'.mp hmap
    constructor
    · subst hpv
      simp only [pollutant_map, List.mem_cons, List.not_mem_nil, or_false] at hkd
      rcases hkd with h | h | h | h | h | h <;> simp [h]
    · exact ⟨kd.1, by simpa [← hpv] using hkd, by simp [← hpv, hv]⟩
  · intro k v l hk
    unfold mapIaqi
    apply List.filterMap_congr
    intro kd hkd
    rw [lookup_cons_of_ne v l (hk kd hkd)]
  · intro i rest latest m ms waqi hl
    simp [get_current_aqi, hl]

/-- Concrete instance of C9 (amended): a fallback response with keys pm25
and an unmapped key is remapped to PM2.5 only. -/
theorem C9_pollutant_remap_witness :
    get_aqi_from_alternative_source
      (Except.ok ⟨"ok", 42, [("pm25", 10), ("bc", 3)]⟩) "London" "t"
      = FetchResult.reading 42 (mapIaqi [("pm25", 10), ("bc", 3)]) "London" "t" ∧
    mapIaqi ([("bc", 3)] : List (String × ℚ)) = mapIaqi [] :=
  ⟨(C9_pollutant_remap ⟨"ok", 42, [("pm25", 10), ("bc", 3)]⟩ "London" "t" rfl).1,
   (C9_pollutant_remap ⟨"ok", 42, [("pm25", 10), ("bc", 3)]⟩ "London" "t" rfl).2.2.1
     "bc" 3 [] (by decide)⟩

/-- Rounding to one decimal place, the Python round(x, 1) step of the
trend estimator. -/
def round1 (q : ℚ) : ℚ := (round (q * 10) : ℤ) / 10

/-- Embedding of `utils.predict_aqi_trend`. Historical readings are
(timestamp, aqi) pairs with timestamps in days; the fitted regression
model is abstracted as a per-date prediction function, since the three
calendar features it consumes are derived from the date alone. Fewer than
5 rows yield no prediction; otherwise the result has one entry per
requested future day, counted forward from the latest observed timestamp,
the prediction rounded to one decimal and clamped below at zero. -/
def predict_aqi_trend (historical_data : List (Int × ℚ)) (days_to_predict : Nat)
    (model : Int → ℚ) : Option (List (Int × ℚ)) :=
  if historical_data.length < 5 then none
  else
    let dates := historical_data.map (fun p => p.1)
    let last_date := dates.foldl max (dates.headD 0)
    some ((List.range days_to_predict).map (fun i : Nat =>
      (last_date + ((i : Int) + 1),
        max 0 (round1 (model (last_date + ((i : Int) + 1)))))))

/-- C7: with fewer than 5 historical readings the trend estimator returns
no prediction; with at least 5 it returns exactly the requested number of
future-day entries, each with a non-negative AQI value. -/
theorem C7_trend_prediction (hist : List (Int × ℚ)) (n : Nat) (model : Int → ℚ) :
    (hist.length < 5 → predict_aqi_trend hist n model = none) ∧
    (5 ≤ hist.length → ∃ l, predict_aqi_trend hist n model = some l ∧
      l.length = n ∧ ∀ e ∈ l, 0 ≤ e.2) := by
  constructor
  · intro h
    simp [predict_aqi_trend, h]
  · intro h
    unfold predict_aqi_trend
    rw [if_neg (by omega)]
    refine ⟨_, rfl, by rw [List.length_map, List.length_range], ?_⟩
    intro e he
    rw [List.mem_map] at he
    obtain ⟨i, _, he⟩ := he
    rw [← he]
    exact le_max_left 0 _

/-- Concrete instance of C7: 2 readings give no prediction; 5 readings
and a model predicting a negative value give 3 entries, all clamped to a
non-negative AQI. -/
theorem C7_trend_prediction_witness :
    predict_aqi_trend [(0, 10), (1, 12)] 3 (fun _ => 7) = none ∧
    ∃ l, predict_aqi_trend [(0, 10), (1, 12), (2, 9), (3, 14), (4, 11)] 3
        (fun _ => -7) = some l ∧ l.length = 3 ∧ ∀ e ∈ l, 0 ≤ e.2 :=
  ⟨(C7_trend_prediction [(0, 10), (1, 12)] 3 (fun _ => 7)).1 (by decide),
   (C7_trend_prediction [(0, 10), (1, 12), (2, 9), (3, 14), (4, 11)] 3
     (fun _ => -7)).2 (by decide)⟩

/-- Lower-cased character list of a health-condition string, the Python
.lower() preprocessing of the personalization layer. -/
def condLower (s : String) : List Char := s.toList.map Char.toLower

/-- Contiguous-substring test on character lists: true when `needle`
occurs inside `haystack`, the semantics of Python `needle in haystack`
for strings. -/
def isSubstringOf (needle : List Char) : List Char → Bool
  | [] => needle.isEmpty
  | c :: t => needle.isPrefixOf (c :: t) || isSubstringOf needle t

/-- Case-insensitive keyword containment test of the personalization
layer, Python `kw in condition_lower`. -/
def hasKw (condition : String) (kw : String) : Bool :=
  isSubstringOf kw.toList (condLower condition)

/-- Base advice of `utils.get_personalized_recommendation`, selected by
the six AQI breakpoints. -/
def base_advice (aqi : ℚ) : String :=
  if aqi ≤ 50 then "Air quality is good. It\x27s a great day for outdoor activities."
  else if aqi ≤ 100 then "Air quality is moderate. Most people can continue outdoor activities."
  else if aqi ≤ 150 then "Air quality is unhealthy for sensitive groups. Consider reducing prolonged outdoor exertion."
  else if aqi ≤ 200 then "Air quality is unhealthy. Everyone should reduce prolonged outdoor exertion."
  else if aqi ≤ 300 then "Air quality is very unhealthy. Avoid outdoor activities when possible."
  else "Air quality is hazardous. Avoid all outdoor activities."

/-- Four-tier advice of the respiratory keyword category. -/
def respiratory_advice (aqi : ℚ) : String :=
  if aqi ≤ 50 then "With your respiratory condition, you should be comfortable outside today, but always keep your rescue inhaler available."
  else if aqi ≤ 100 then "For people with asthma or COPD, watch for any symptoms while outdoors. Consider keeping outdoor activities moderate in duration."
  else if aqi ≤ 150 then "With your respiratory condition, you should limit prolonged outdoor activities and keep medication handy. Consider wearing an N95 mask if you must be outside."
  else "Given your respiratory condition, it\x27s strongly advised to stay indoors with windows closed and air purifier running. If you must go outside, wear an N95 mask and limit exposure time."

/-- Four-tier advice of the heart keyword category. -/
def heart_advice (aqi : ℚ) : String :=
  if aqi ≤ 50 then "With your heart condition, today\x27s air quality is good for your regular outdoor activities."
  else if aqi ≤ 100 then "For those with heart issues, maintain awareness of your exertion level and any unusual symptoms."
  else if aqi ≤ 150 then "With your cardiovascular condition, consider indoor exercise today or reducing intensity of outdoor activities."
  else "Given your heart condition, avoid outdoor exertion today. Air pollution can increase stress on your cardiovascular system."

/-- Four-tier advice of the allergy keyword category. -/
def allergy_advice (aqi : ℚ) : String :=
  if aqi ≤ 50 then "Allergy sufferers should still monitor personal symptoms, but air quality today is generally favorable."
  else if aqi ≤ 100 then "For allergy sufferers, consider taking your allergy medication before going outdoors today."
  else if aqi ≤ 150 then "With your allergies, consider wearing a mask outside and taking allergy medication beforehand."
  else "Given your allergy sensitivity, stay indoors with windows closed and air purifier running if possible."

/-- Four-tier advice of the pregnancy keyword category. -/
def pregnancy_advice (aqi : ℚ) : String :=
  if aqi ≤ 50 then "For expectant mothers, today\x27s air quality is good for normal outdoor activities."
  else if aqi ≤ 100 then "Pregnant women should monitor how they feel during outdoor activities and take breaks as needed."
  else if aqi ≤ 150 then "As an expectant mother, consider limiting prolonged outdoor exposure today to protect both you and your baby."
  else "For the health of you and your baby, it\x27s advised to stay indoors today and keep windows closed."

/-- Fallback advice for unmatched conditions: empty unless the AQI is
above 100. -/
def generic_advice (aqi : ℚ) : String :=
  if 100 < aqi then "Given your health situation, pay close attention to any unusual symptoms when outdoors and reduce exposure time if needed."
  else ""

/-- Keyword dispatch of `utils.get_personalized_recommendation`: the four
categories are tested in the fixed order respiratory, heart, allergy,
pregnancy; only the first match selects the specific advice. -/
def specific_advice (aqi : ℚ) (condition : String) : String :=
  if hasKw condition "asthma" || hasKw condition "copd" || hasKw condition "respiratory" then
    respiratory_advice aqi
  else if hasKw condition "heart" || hasKw condition "cardiovascular" then
    heart_advice aqi
  else if hasKw condition "allerg" then allergy_advice aqi
  else if hasKw condition "pregna" then pregnancy_advice aqi
  else generic_advice aqi

/-- Embedding of `utils.get_personalized_recommendation`: base advice,
followed by the personalized sentence when one was selected. -/
def get_personalized_recommendation (aqi : ℚ) (health_condition : String) : String :=
  if specific_advice aqi health_condition ≠ "" then
    base_advice aqi ++ "\n\nPersonalized advice: " ++ specific_advice aqi health_condition
  else base_advice aqi

lemma respiratory_advice_ne_empty (aqi : ℚ) : respiratory_advice aqi ≠ "" := by
  unfold respiratory_advice
  split_ifs <;> decide

lemma heart_advice_ne_empty (aqi : ℚ) : heart_advice aqi ≠ "" := by
  unfold heart_advice
  split_ifs <;> decide

lemma allergy_advice_ne_empty (aqi : ℚ) : allergy_advice aqi ≠ "" := by
  unfold allergy_advice
  split_ifs <;> decide

lemma pregnancy_advice_ne_empty (aqi : ℚ) : pregnancy_advice aqi ≠ "" := by
  unfold pregnancy_advice
  split_ifs <;> decide

/-- C10: the keyword categories of the personalization layer are tested
in the fixed order respiratory, heart/cardiovascular, allergy, pregnancy,
and only the first matching category contributes: a condition matching a
category receives exactly that category's advice regardless of later
matches, and the respiratory advice never coincides with the heart
advice, so a condition matching both never receives a combination. -/
theorem C10_first_category_only (aqi : ℚ) (condition : String) :
    ((hasKw condition "asthma" || hasKw condition "copd" ||
        hasKw condition "respiratory") = true →
      get_personalized_recommendation aqi condition
        = base_advice aqi ++ "\n\nPersonalized advice: " ++ respiratory_advice aqi) ∧
    ((hasKw condition "asthma" || hasKw condition "copd" ||
        hasKw condition "respiratory") = false →
      (hasKw condition "heart" || hasKw condition "cardiovascular") = true →
      get_personalized_recommendation aqi condition
        = base_advice aqi ++ "\n\nPersonalized advice: " ++ heart_advice aqi) ∧
    ((hasKw condition "asthma" || hasKw condition "copd" ||
        hasKw condition "respiratory") = false →
      (hasKw condition "heart" || hasKw condition "cardiovascular") = false →
      hasKw condition "allerg" = true →
      get_personalized_recommendation aqi condition
        = base_advice aqi ++ "\n\nPersonalized advice: " ++ allergy_advice aqi) ∧
    ((hasKw condition "asthma" || hasKw condition "copd" ||
        hasKw condition "respiratory") = false →
      (hasKw condition "heart" || hasKw condition "cardiovascular") = false →
      hasKw condition "allerg" = false →
      hasKw condition "pregna" = true →
      get_personalized_recommendation aqi condition
        = base_advice aqi ++ "\n\nPersonalized advice: " ++ pregnancy_advice aqi) ∧
    respiratory_advice aqi ≠ heart_advice aqi := by
  refine ⟨?_, ?_, ?_, ?_, ?_⟩
  · intro h1
    have hs : specific_advice aqi condition = respiratory_advice aqi := by
      unfold specific_advice
      rw [if_pos h1]
    unfold get_personalized_recommendation
    rw [hs, if_pos (respiratory_advice_ne_empty aqi)]
  · intro h1 h2
    have hs : specific_advice aqi condition = heart_advice aqi := by
      unfold specific_advice
      rw [if_neg (by simp [h1]), if_pos h2]
    unfold get_personalized_recommendation
    rw [hs, if_pos (heart_advice_ne_empty aqi)]
  · intro h1 h2 h3
    have hs : specific_advice aqi condition = allergy_advice aqi := by
      unfold specific_advice
      rw [if_neg (by simp [h1]), if_neg (by simp [h2]), if_pos h3]
    unfold get_personalized_recommendation
    rw [hs, if_pos (allergy_advice_ne_empty aqi)]
  · intro h1 h2 h3 h4
    have hs : specific_advice aqi condition = pregnancy_advice aqi := by
      unfold specific_advice
      rw [if_neg (by simp [h1]), if_neg (by simp [h2]),
        if_neg (by simp [h3]), if_pos h4]
    unfold get_personalized_recommendation
    rw [hs, if_pos (pregnancy_advice_ne_empty aqi)]
  · unfold respiratory_advice heart_advice
    split_ifs <;> decide

/-- Concrete instance of C10: a condition naming both asthma and heart
disease matches both categories, yet receives exactly the respiratory
advice. -/
theorem C10_first_category_only_witness :
    (hasKw "asthma and heart disease" "asthma" ||
      hasKw "asthma and heart disease" "copd" ||
      hasKw "asthma and heart disease" "respiratory") = true ∧
    (hasKw "asthma and heart disease" "heart" ||
      hasKw "asthma and heart disease" "cardiovascular") = true ∧
    get_personalized_recommendation 42 "asthma and heart disease"
      = base_advice 42 ++ "\n\nPersonalized advice: " ++ respiratory_advice 42 :=
  ⟨by decide, by decide,
   (C10_first_category_only 42 "asthma and heart disease").1 (by decide)⟩

end AirQual
